import Mathlib

/-
Verification of the FinchAnalytics valuation engine and its orchestration
layer.  The definitions below are a shallow embedding of
backend/services/valuation_engine.py and backend/routers/valuation.py:
Python floats are modelled by rationals, dictionary field lookups by
Option-valued record fields, and raised exceptions by an Except result.
-/

namespace FinchAnalytics

/-- Supported valuation methods, from `ValuationMethod` in models/schemas.py. -/
inductive ValuationMethod where
  | dcf
  | peg
  | pe
  | comparative
deriving DecidableEq, Repr

/-- Errors a valuator can signal.  The first three model the Python builtin
exceptions the code in valuation_engine.py can actually raise
(`ValueError`, `ZeroDivisionError`, `IndexError`); the last three model the
error taxonomy named by the design document (`MissingInputError`,
`DivergentGrowthError`, `InvalidAssumptionError`), which has no counterpart
anywhere in the source tree. -/
inductive ValError where
  | valueError
  | zeroDivisionError
  | indexError
  | missingInput
  | divergentGrowth
  | invalidAssumption
deriving DecidableEq, Repr

/-- The per-stock data record handed to the valuators (`stock_data` dict).
A `none` field models an absent dictionary key, mirroring
`stock_data.get(key)` / `stock_data.get(key, default)`. -/
structure StockData where
  current_price : Option ℚ := none
  free_cash_flow : Option ℚ := none
  total_debt : Option ℚ := none
  total_cash : Option ℚ := none
  shares_outstanding : Option ℚ := none
  pe_ratio : Option ℚ := none
  earnings_growth : Option ℚ := none
  eps : Option ℚ := none
  sector : Option String := none
  debt_to_equity : Option ℚ := none
deriving DecidableEq, Repr

/-- The market context record (`market_context` dict); only the volatility
field is ever read by the code under verification. -/
structure MarketContext where
  market_volatility : Option ℚ := none
deriving DecidableEq, Repr

/-- Caller-supplied assumption overrides (the `assumptions` dict argument);
a `none` field models a key absent from the dict. -/
structure ValuationAssumptions where
  growth_rate : Option ℚ := none
  discount_rate : Option ℚ := none
  terminal_growth : Option ℚ := none
  projection_years : Option ℤ := none
deriving DecidableEq, Repr

/-- One valuation outcome, from `ValuationResult` in models/schemas.py
(the numeric fields the claims are about; the free-form `assumptions` and
`calculation_details` audit dictionaries are not modelled). -/
structure ValuationResult where
  method : ValuationMethod
  estimated_value : ℚ
  confidence_interval : ℚ × ℚ
deriving DecidableEq, Repr

/-- Python truthiness of an optional numeric dictionary value: `None` and
`0` are falsy, every other number is truthy. -/
def truthy (x : Option ℚ) : Bool :=
  match x with
  | none => false
  | some v => decide (v ≠ 0)

namespace ValuationEngine

/-- `_project_cash_flows` (valuation_engine.py, lines 252-263):
`for year in range(1, years + 1): fcf = initial_fcf * ((1 + growth_rate) ** year)`.
For `years <= 0` the Python range is empty, hence the empty list. -/
def project_cash_flows (initial_fcf growth_rate : ℚ) (years : ℤ) : List ℚ :=
  (List.range years.toNat).map (fun i => initial_fcf * (1 + growth_rate) ^ (i + 1))

/-- `_calculate_terminal_value` (lines 265-272):
`final_fcf * (1 + terminal_growth) / (discount_rate - terminal_growth)`.
When the denominator is zero Python raises `ZeroDivisionError`; this is the
only way the function can fail. -/
def calculate_terminal_value (final_fcf terminal_growth discount_rate : ℚ) :
    Except ValError ℚ :=
  if discount_rate - terminal_growth = 0 then Except.error ValError.zeroDivisionError
  else Except.ok (final_fcf * (1 + terminal_growth) / (discount_rate - terminal_growth))

/-- `_discount_cash_flows` (lines 274-280):
`[cf / ((1 + discount_rate) ** (i + 1)) for i, cf in enumerate(cash_flows)]`.
The `ZeroDivisionError` Python raises when `1 + discount_rate == 0` is
modelled by the guard in `dcf_valuation` before this is invoked. -/
def discount_cash_flows (cash_flows : List ℚ) (discount_rate : ℚ) : List ℚ :=
  cash_flows.enum.map (fun ic => ic.2 / (1 + discount_rate) ^ (ic.1 + 1))

/-- `_calculate_dcf_confidence_interval` (lines 282-296): a fixed
`(0.8 * estimate, 1.2 * estimate)` band; the growth and discount arguments
are accepted but unused, exactly as in the source. -/
def calculate_dcf_confidence_interval
    (estimated_value growth_rate discount_rate : ℚ) : ℚ × ℚ :=
  (estimated_value * (8/10), estimated_value * (12/10))

/-- `_calculate_peg_confidence_interval` (lines 298-317): band width tiered
by the deviation of the PEG from 1.0. -/
def calculate_peg_confidence_interval (estimated_value peg_ratio : ℚ) : ℚ × ℚ :=
  let peg_deviation := |peg_ratio - 1|
  let confidence_range : ℚ :=
    if peg_deviation < 2/10 then 1/10
    else if peg_deviation < 5/10 then 2/10
    else 3/10
  (estimated_value * (1 - confidence_range), estimated_value * (1 + confidence_range))

/-- `_calculate_pe_confidence_interval` (lines 319-339): band width tiered
by the relative deviation of the current P/E from the industry P/E. -/
def calculate_pe_confidence_interval
    (estimated_value current_pe industry_pe : ℚ) : ℚ × ℚ :=
  let pe_deviation := |current_pe - industry_pe| / industry_pe
  let confidence_range : ℚ :=
    if pe_deviation < 1/10 then 1/10
    else if pe_deviation < 3/10 then 2/10
    else 3/10
  (estimated_value * (1 - confidence_range), estimated_value * (1 + confidence_range))

/-- `_get_industry_pe_ratio` (lines 341-359): the fixed sector table with
default 18.0 for an unrecognized or missing sector. -/
def get_industry_pe_ratio (sector : String) : ℚ :=
  if sector = ("Technology") then 25
  else if sector = ("Healthcare") then 20
  else if sector = ("Finance") then 15
  else if sector = ("Energy") then 12
  else if sector = ("Consumer Cyclical") then 18
  else if sector = ("Consumer Defensive") then 16
  else if sector = ("Industrials") then 17
  else if sector = ("Basic Materials") then 14
  else if sector = ("Real Estate") then 22
  else if sector = ("Communication Services") then 23
  else if sector = ("Utilities") then 19
  else 18

/-- `dcf_valuation` (lines 21-100).  Missing inputs default per the source:
free cash flow, price, debt and cash to 0, shares outstanding to 1; the
assumption defaults are 0.05 / 0.10 / 0.02 / 5.  `projected_cash_flows[-1]`
on an empty list raises `IndexError`; the terminal-value division and the
discounting divisions raise `ZeroDivisionError` when the respective
denominator is zero. -/
def dcf_valuation (stock_data : StockData) (market_context : MarketContext)
    (assumptions : Option ValuationAssumptions) : Except ValError ValuationResult :=
  let free_cash_flow := stock_data.free_cash_flow.getD 0
  let growth_rate := (assumptions.bind (fun a => a.growth_rate)).getD (5/100)
  let discount_rate := (assumptions.bind (fun a => a.discount_rate)).getD (1/10)
  let terminal_growth := (assumptions.bind (fun a => a.terminal_growth)).getD (1/50)
  let projection_years := (assumptions.bind (fun a => a.projection_years)).getD 5
  let projected_cash_flows := project_cash_flows free_cash_flow growth_rate projection_years
  match projected_cash_flows.getLast? with
  | none => Except.error ValError.indexError
  | some final_flow =>
    match calculate_terminal_value final_flow terminal_growth discount_rate with
    | Except.error e => Except.error e
    | Except.ok terminal_value =>
      if 1 + discount_rate = 0 then Except.error ValError.zeroDivisionError
      else
        let present_value_cash_flows := discount_cash_flows projected_cash_flows discount_rate
        let present_value_terminal := terminal_value / (1 + discount_rate) ^ projection_years.toNat
        let enterprise_value := present_value_cash_flows.sum + present_value_terminal
        let debt := stock_data.total_debt.getD 0
        let cash := stock_data.total_cash.getD 0
        let equity_value := enterprise_value - debt + cash
        let shares_outstanding := stock_data.shares_outstanding.getD 1
        let estimated_value :=
          if shares_outstanding > 0 then equity_value / shares_outstanding else equity_value
        Except.ok
          { method := ValuationMethod.dcf,
            estimated_value := estimated_value,
            confidence_interval :=
              calculate_dcf_confidence_interval estimated_value growth_rate discount_rate }

/-- `peg_valuation` (lines 102-156).  Raises `ValueError` when the P/E
ratio or the earnings growth is absent or falsy (Python `not x`); EPS
defaults to `current_price / pe_ratio` when absent. -/
def peg_valuation (stock_data : StockData) (market_context : MarketContext)
    (assumptions : Option ValuationAssumptions) : Except ValError ValuationResult :=
  let pe_ratio := stock_data.pe_ratio
  let earnings_growth := stock_data.earnings_growth
  let current_price := stock_data.current_price.getD 0
  if !truthy pe_ratio || !truthy earnings_growth then Except.error ValError.valueError
  else
    let pe := pe_ratio.getD 0
    let growth := earnings_growth.getD 0
    let peg_ratio := pe / (growth * 100)
    let fair_pe := growth * 100
    let eps := stock_data.eps.getD (current_price / pe)
    let estimated_value := fair_pe * eps
    Except.ok
      { method := ValuationMethod.peg,
        estimated_value := estimated_value,
        confidence_interval := calculate_peg_confidence_interval estimated_value peg_ratio }

/-- `pe_valuation` (lines 158-209).  EPS defaults to
`current_price / pe_ratio if pe_ratio else 0`; raises `ValueError` when the
P/E ratio is absent or falsy, or the (possibly derived) EPS is falsy. -/
def pe_valuation (stock_data : StockData) (market_context : MarketContext)
    (assumptions : Option ValuationAssumptions) : Except ValError ValuationResult :=
  let current_pe := stock_data.pe_ratio
  let current_price := stock_data.current_price.getD 0
  let eps := stock_data.eps.getD
    (if truthy current_pe then current_price / current_pe.getD 0 else 0)
  if !truthy current_pe || eps == 0 then Except.error ValError.valueError
  else
    let industry_pe := get_industry_pe_ratio (stock_data.sector.getD (""))
    let estimated_value := industry_pe * eps
    Except.ok
      { method := ValuationMethod.pe,
        estimated_value := estimated_value,
        confidence_interval :=
          calculate_pe_confidence_interval estimated_value (current_pe.getD 0) industry_pe }

/-- `comparative_valuation` (lines 211-250): the placeholder strategy,
`current_price * 1.1` with a fixed `(0.8, 1.2)` band; never raises. -/
def comparative_valuation (stock_data : StockData) (market_context : MarketContext)
    (assumptions : Option ValuationAssumptions) : Except ValError ValuationResult :=
  let current_price := stock_data.current_price.getD 0
  let estimated_value := current_price * (11/10)
  Except.ok
    { method := ValuationMethod.comparative,
      estimated_value := estimated_value,
      confidence_interval := (estimated_value * (8/10), estimated_value * (12/10)) }

end ValuationEngine

/-- `perform_single_valuation` (valuation.py, lines 126-144): dispatch on
the method identifier.  The `ValuationMethod` enum is closed, so the
unreachable `else: raise ValueError` branch of the source has no
counterpart. -/
def perform_single_valuation (method : ValuationMethod) (stock_data : StockData)
    (market_context : MarketContext) (assumptions : Option ValuationAssumptions) :
    Except ValError ValuationResult :=
  match method with
  | ValuationMethod.dcf =>
      ValuationEngine.dcf_valuation stock_data market_context assumptions
  | ValuationMethod.peg =>
      ValuationEngine.peg_valuation stock_data market_context assumptions
  | ValuationMethod.pe =>
      ValuationEngine.pe_valuation stock_data market_context assumptions
  | ValuationMethod.comparative =>
      ValuationEngine.comparative_valuation stock_data market_context assumptions

/-- The per-method loop of `perform_valuation` (valuation.py, lines 50-62):
each requested method is attempted; a successful result is appended, an
exception is caught and the loop continues with the next method. -/
def perform_valuation_loop : List ValuationMethod → StockData → MarketContext →
    Option ValuationAssumptions → List ValuationResult
  | [], _, _, _ => []
  | method :: rest, stock_data, market_context, assumptions =>
    match perform_single_valuation method stock_data market_context assumptions with
    | Except.ok result =>
        result :: perform_valuation_loop rest stock_data market_context assumptions
    | Except.error _ => perform_valuation_loop rest stock_data market_context assumptions

/-- The slice of `FinancialMetrics` (models/schemas.py) that
`generate_recommendation` reads. -/
structure FinancialMetrics where
  current_price : ℚ
deriving DecidableEq, Repr

/-- `generate_recommendation` (valuation.py, lines 164-190). -/
def generate_recommendation (valuations : List ValuationResult)
    (metrics : FinancialMetrics) : String :=
  if valuations = [] then ("Insufficient data for recommendation")
  else
    let avg_value := (valuations.map (fun v => v.estimated_value)).sum / (valuations.length : ℚ)
    let current_price := metrics.current_price
    if avg_value > current_price * (12/10) then
      ("Strong Buy - Multiple valuation methods suggest significant upside")
    else if avg_value > current_price * (105/100) then
      ("Buy - Valuation suggests moderate upside potential")
    else if avg_value < current_price * (8/10) then
      ("Sell - Valuation suggests significant downside risk")
    else if avg_value < current_price * (95/100) then
      ("Hold - Valuation suggests slight downside risk")
    else
      ("Hold - Valuation is approximately fair value")

/-- `identify_risk_factors` (valuation.py, lines 192-217): the three
rule-based checks appended in declaration order, with the sentinel list
returned when nothing fired. -/
def identify_risk_factors (stock_data : StockData) (market_context : MarketContext) :
    List String :=
  let risk_factors :=
    (if stock_data.debt_to_equity.getD 0 > 1 then ["High debt-to-equity ratio"] else []) ++
    (if stock_data.pe_ratio.getD 0 > 30 then ["High P/E ratio may indicate overvaluation"] else []) ++
    (if market_context.market_volatility.getD 0 > 3/10 then ["High market volatility"] else [])
  if risk_factors = [] then ["No significant risk factors identified"] else risk_factors


/-
Helper lemmas shared by the claim theorems below.
-/

/-- Truthiness of an optional numeric value holds exactly for a present,
nonzero value. -/
theorem truthy_iff (x : Option ℚ) : truthy x = true ↔ ∃ v, x = some v ∧ v ≠ 0 := by
  cases x <;> simp [truthy]

/-- The fixed DCF and comparative bands are the multiplicative band of
half-width 1/5. -/
theorem band_eq_fifth (E : ℚ) :
    (E * (8/10), E * (12/10)) = (E * (1 - 1/5), E * (1 + 1/5)) := by
  norm_num

/-- The PEG confidence interval is a multiplicative band of nonnegative
half-width around the estimate. -/
theorem peg_ci_shape (E P : ℚ) : ∃ cr : ℚ, 0 ≤ cr ∧
    ValuationEngine.calculate_peg_confidence_interval E P = (E * (1 - cr), E * (1 + cr)) := by
  refine ⟨if |P - 1| < 2/10 then 1/10 else if |P - 1| < 5/10 then 2/10 else 3/10, ?_, ?_⟩
  · split_ifs <;> norm_num
  · rfl

/-- The P/E confidence interval is a multiplicative band of nonnegative
half-width around the estimate. -/
theorem pe_ci_shape (E cpe ipe : ℚ) : ∃ cr : ℚ, 0 ≤ cr ∧
    ValuationEngine.calculate_pe_confidence_interval E cpe ipe = (E * (1 - cr), E * (1 + cr)) := by
  refine ⟨if |cpe - ipe| / ipe < 1/10 then 1/10 else if |cpe - ipe| / ipe < 3/10 then 2/10 else 3/10, ?_, ?_⟩
  · split_ifs <;> norm_num
  · rfl

/-- A successful DCF outcome carries the DCF method tag and a
multiplicative confidence band of nonnegative half-width. -/
theorem dcf_ok_shape {s : StockData} {c : MarketContext} {a : Option ValuationAssumptions}
    {r : ValuationResult} (h : ValuationEngine.dcf_valuation s c a = Except.ok r) :
    r.method = ValuationMethod.dcf ∧ ∃ cr : ℚ, 0 ≤ cr ∧
      r.confidence_interval = (r.estimated_value * (1 - cr), r.estimated_value * (1 + cr)) := by
  simp only [ValuationEngine.dcf_valuation] at h
  split at h
  · simp at h
  · split at h
    · simp at h
    · split at h
      · simp at h
      · rw [Except.ok.injEq] at h
        subst h
        exact ⟨rfl, 1/5, by norm_num, band_eq_fifth _⟩

/-- A successful PEG outcome carries the PEG method tag and a
multiplicative confidence band of nonnegative half-width. -/
theorem peg_ok_shape {s : StockData} {c : MarketContext} {a : Option ValuationAssumptions}
    {r : ValuationResult} (h : ValuationEngine.peg_valuation s c a = Except.ok r) :
    r.method = ValuationMethod.peg ∧ ∃ cr : ℚ, 0 ≤ cr ∧
      r.confidence_interval = (r.estimated_value * (1 - cr), r.estimated_value * (1 + cr)) := by
  simp only [ValuationEngine.peg_valuation] at h
  split at h
  · simp at h
  · rw [Except.ok.injEq] at h
    subst h
    exact ⟨rfl, peg_ci_shape _ _⟩

/-- A successful P/E outcome carries the P/E method tag and a
multiplicative confidence band of nonnegative half-width. -/
theorem pe_ok_shape {s : StockData} {c : MarketContext} {a : Option ValuationAssumptions}
    {r : ValuationResult} (h : ValuationEngine.pe_valuation s c a = Except.ok r) :
    r.method = ValuationMethod.pe ∧ ∃ cr : ℚ, 0 ≤ cr ∧
      r.confidence_interval = (r.estimated_value * (1 - cr), r.estimated_value * (1 + cr)) := by
  simp only [ValuationEngine.pe_valuation] at h
  split at h <;> split at h
  · simp at h
  · rw [Except.ok.injEq] at h
    subst h
    exact ⟨rfl, pe_ci_shape _ _ _⟩
  · simp at h
  · rw [Except.ok.injEq] at h
    subst h
    exact ⟨rfl, pe_ci_shape _ _ _⟩

/-- A successful comparative outcome carries the comparative method tag and
a multiplicative confidence band of nonnegative half-width. -/
theorem comparative_ok_shape {s : StockData} {c : MarketContext}
    {a : Option ValuationAssumptions} {r : ValuationResult}
    (h : ValuationEngine.comparative_valuation s c a = Except.ok r) :
    r.method = ValuationMethod.comparative ∧ ∃ cr : ℚ, 0 ≤ cr ∧
      r.confidence_interval = (r.estimated_value * (1 - cr), r.estimated_value * (1 + cr)) := by
  simp only [ValuationEngine.comparative_valuation] at h
  rw [Except.ok.injEq] at h
  subst h
  exact ⟨rfl, 1/5, by norm_num, by simpa using band_eq_fifth _⟩

/-- Every successful outcome of `perform_single_valuation` carries the
requested method tag and a multiplicative confidence band of nonnegative
half-width around its estimate. -/
theorem perform_single_ok_shape {m : ValuationMethod} {s : StockData} {c : MarketContext}
    {a : Option ValuationAssumptions} {r : ValuationResult}
    (h : perform_single_valuation m s c a = Except.ok r) :
    r.method = m ∧ ∃ cr : ℚ, 0 ≤ cr ∧
      r.confidence_interval = (r.estimated_value * (1 - cr), r.estimated_value * (1 + cr)) := by
  cases m <;> simp only [perform_single_valuation] at h
  · exact dcf_ok_shape h
  · exact peg_ok_shape h
  · exact pe_ok_shape h
  · exact comparative_ok_shape h

/-- The orchestration loop is the order-preserving selection of the
successful method results. -/
theorem loop_eq_filterMap (methods : List ValuationMethod) (s : StockData)
    (c : MarketContext) (a : Option ValuationAssumptions) :
    perform_valuation_loop methods s c a
      = methods.filterMap (fun m => (perform_single_valuation m s c a).toOption) := by
  induction methods with
  | nil => rfl
  | cons m rest ih =>
    cases h : perform_single_valuation m s c a with
    | ok r => simp [perform_valuation_loop, h, Except.toOption, ih]
    | error e => simp [perform_valuation_loop, h, Except.toOption, ih]

/-- The method tags of the loop results form a sublist of the requested
method list: order is preserved and failures are skipped in place. -/
theorem loop_methods_sublist (methods : List ValuationMethod) (s : StockData)
    (c : MarketContext) (a : Option ValuationAssumptions) :
    List.Sublist ((perform_valuation_loop methods s c a).map (fun r => r.method)) methods := by
  induction methods with
  | nil => simp [perform_valuation_loop]
  | cons m rest ih =>
    cases h : perform_single_valuation m s c a with
    | ok r =>
      have hm : r.method = m := (perform_single_ok_shape h).1
      simp only [perform_valuation_loop, h, List.map_cons, hm]
      exact List.Sublist.cons_cons m ih
    | error e =>
      simp only [perform_valuation_loop, h]
      exact List.sublist_cons_of_sublist m ih

/-
Claim theorems.
-/

/-- C1 counterexample: with `discount_rate = 0.01 <= terminal_growth = 0.02`
the terminal-value computation does not fail at all — it succeeds and
returns the (negative) Gordon formula value, refuting the claim that it
fails whenever `discount_rate <= terminal_growth`. -/
theorem calculate_terminal_value_succeeds_below_growth :
    (1/100 : ℚ) ≤ 2/100
    ∧ ValuationEngine.calculate_terminal_value 100 (2/100) (1/100) = Except.ok (-10200) := by
  constructor
  · norm_num
  · norm_num [ValuationEngine.calculate_terminal_value]

/-- C1 (amended): the terminal-value computation fails — with a plain
division-by-zero error, there being no DivergentGrowthError in the code —
exactly when `discount_rate = terminal_growth`; for every other pair,
including `discount_rate < terminal_growth`, it succeeds and returns
`final_period_flow * (1 + terminal_growth) / (discount_rate - terminal_growth)`. -/
theorem calculate_terminal_value_spec (final_fcf terminal_growth discount_rate : ℚ) :
    (ValuationEngine.calculate_terminal_value final_fcf terminal_growth discount_rate
        = Except.error ValError.zeroDivisionError ↔ discount_rate = terminal_growth)
    ∧ (discount_rate ≠ terminal_growth →
        ValuationEngine.calculate_terminal_value final_fcf terminal_growth discount_rate
          = Except.ok (final_fcf * (1 + terminal_growth) / (discount_rate - terminal_growth))) := by
  by_cases hd : discount_rate - terminal_growth = 0
  · have heq : discount_rate = terminal_growth := by linarith
    exact ⟨by simp [ValuationEngine.calculate_terminal_value, hd, heq],
      fun hne => absurd heq hne⟩
  · have hne : ¬ discount_rate = terminal_growth := fun heq => hd (by rw [heq, sub_self])
    exact ⟨by simp [ValuationEngine.calculate_terminal_value, hd, hne],
      fun _ => by simp [ValuationEngine.calculate_terminal_value, hd]⟩

/-- C1 witness: the amended theorem applied at the spec example
`discount_rate = 0.10, terminal_growth = 0.02`, which succeeds. -/
theorem calculate_terminal_value_spec_witness :
    (1/10 : ℚ) ≠ 2/100
    ∧ ValuationEngine.calculate_terminal_value 100 (2/100) (1/10)
        = Except.ok (100 * (1 + 2/100) / (1/10 - 2/100)) :=
  ⟨by norm_num, (calculate_terminal_value_spec 100 (2/100) (1/10)).2 (by norm_num)⟩

/-- C2 counterexample: a snapshot whose free-cash-flow field is absent does
not make the DCF valuator fail with any error; it computes on the default 0
and returns a zero estimate. -/
theorem dcf_valuation_absent_fcf_succeeds :
    ValuationEngine.dcf_valuation { current_price := some 50 } {} none =
      Except.ok { method := ValuationMethod.dcf, estimated_value := 0,
                  confidence_interval := (0, 0) } := by
  norm_num [ValuationEngine.dcf_valuation, ValuationEngine.project_cash_flows,
    ValuationEngine.calculate_terminal_value, ValuationEngine.discount_cash_flows,
    ValuationEngine.calculate_dcf_confidence_interval, List.range_succ,
    Int.toNat_ofNat, List.replicate, List.enum, List.enumFrom, List.getLast?]

/-- C2 (amended): when the free-cash-flow field is absent the DCF valuator
raises no MissingInputError (no such error exists in the code); it behaves
exactly as if the snapshot carried `free_cash_flow = 0` and computes the
valuation on that zero value. -/
theorem dcf_valuation_defaults_absent_fcf_to_zero (s : StockData) (c : MarketContext)
    (a : Option ValuationAssumptions) (h : s.free_cash_flow = none) :
    ValuationEngine.dcf_valuation s c a =
      ValuationEngine.dcf_valuation { s with free_cash_flow := some 0 } c a := by
  simp [ValuationEngine.dcf_valuation, h]

/-- C2 witness: the amended theorem applied to a concrete snapshot with no
free-cash-flow field. -/
theorem dcf_valuation_defaults_absent_fcf_to_zero_witness :
    ({ current_price := some 50 } : StockData).free_cash_flow = none
    ∧ ValuationEngine.dcf_valuation { current_price := some 50 } {} none =
        ValuationEngine.dcf_valuation
          { ({ current_price := some 50 } : StockData) with free_cash_flow := some 0 } {} none :=
  ⟨rfl, dcf_valuation_defaults_absent_fcf_to_zero { current_price := some 50 } {} none rfl⟩

/-- C10: the comparative valuator is total — for every snapshot it succeeds
with `estimated_value = current_price * 1.1` (price defaulting to 0 when
absent) and band `(estimate * 0.8, estimate * 1.2)`; in particular a
price-less snapshot yields estimate 0 and interval `(0, 0)`. -/
theorem comparative_valuation_total (s : StockData) (c : MarketContext)
    (a : Option ValuationAssumptions) :
    ValuationEngine.comparative_valuation s c a = Except.ok
      { method := ValuationMethod.comparative,
        estimated_value := s.current_price.getD 0 * (11/10),
        confidence_interval := (s.current_price.getD 0 * (11/10) * (8/10),
          s.current_price.getD 0 * (11/10) * (12/10)) }
    ∧ (s.current_price = none →
        ValuationEngine.comparative_valuation s c a = Except.ok
          { method := ValuationMethod.comparative, estimated_value := 0,
            confidence_interval := (0, 0) }) := by
  constructor
  · rfl
  · intro h
    simp [ValuationEngine.comparative_valuation, h]

/-- C10 witness: the second part of the totality theorem applied to the
empty snapshot. -/
theorem comparative_valuation_total_witness :
    ({} : StockData).current_price = none
    ∧ ValuationEngine.comparative_valuation {} {} none = Except.ok
        { method := ValuationMethod.comparative, estimated_value := 0,
          confidence_interval := (0, 0) } :=
  ⟨rfl, (comparative_valuation_total {} {} none).2 rfl⟩

/-- C3: the orchestration loop catches every per-method failure and never
aborts — it equals the order-preserving selection of the successful
outcomes (failures skipped in place, so the method tags of the outcomes
form a sublist of the requested list); on the spec example, requesting
dcf, peg, pe against a snapshot lacking earnings_growth yields exactly the
dcf and pe outcomes, in that order. -/
theorem orchestrator_partial_failure (methods : List ValuationMethod) (s : StockData)
    (c : MarketContext) (a : Option ValuationAssumptions) :
    perform_valuation_loop methods s c a
        = methods.filterMap (fun m => (perform_single_valuation m s c a).toOption)
    ∧ List.Sublist ((perform_valuation_loop methods s c a).map (fun r => r.method)) methods
    ∧ (perform_valuation_loop [ValuationMethod.dcf, ValuationMethod.peg, ValuationMethod.pe]
          { pe_ratio := some 20, current_price := some 100 } {} none).map (fun r => r.method)
        = [ValuationMethod.dcf, ValuationMethod.pe] := by
  refine ⟨loop_eq_filterMap methods s c a, loop_methods_sublist methods s c a, ?_⟩
  norm_num [perform_valuation_loop, perform_single_valuation,
    ValuationEngine.dcf_valuation, ValuationEngine.peg_valuation,
    ValuationEngine.pe_valuation, ValuationEngine.project_cash_flows,
    ValuationEngine.calculate_terminal_value, ValuationEngine.discount_cash_flows,
    ValuationEngine.calculate_dcf_confidence_interval,
    ValuationEngine.calculate_pe_confidence_interval,
    ValuationEngine.get_industry_pe_ratio, truthy, List.range_succ,
    Int.toNat_ofNat, List.replicate, List.enum, List.enumFrom, List.getLast?,
    abs_of_nonneg]

/-- C4: the recommendation is the label selected by comparing the mean of
the successful estimates against the fixed multiples of the current price,
in the order strong-buy, buy, sell, slight-downside, fair-value (the
returned strings begin with exactly these labels), and the empty outcome
list short-circuits to the insufficient-data sentinel before any mean (and
hence any division) is computed; the spec vectors at price 100 follow. -/
theorem generate_recommendation_thresholds (valuations : List ValuationResult)
    (metrics : FinancialMetrics) :
    (valuations = [] → generate_recommendation valuations metrics
        = ("Insufficient data for recommendation"))
    ∧ (valuations ≠ [] →
        generate_recommendation valuations metrics =
          (let mean := (valuations.map (fun v => v.estimated_value)).sum / (valuations.length : ℚ)
           if mean > metrics.current_price * (12/10) then
             ("Strong Buy - Multiple valuation methods suggest significant upside")
           else if mean > metrics.current_price * (105/100) then
             ("Buy - Valuation suggests moderate upside potential")
           else if mean < metrics.current_price * (8/10) then
             ("Sell - Valuation suggests significant downside risk")
           else if mean < metrics.current_price * (95/100) then
             ("Hold - Valuation suggests slight downside risk")
           else ("Hold - Valuation is approximately fair value")))
    ∧ generate_recommendation
        [{ method := ValuationMethod.dcf, estimated_value := 125, confidence_interval := (0, 0) }]
        { current_price := 100 }
        = ("Strong Buy - Multiple valuation methods suggest significant upside")
    ∧ generate_recommendation
        [{ method := ValuationMethod.dcf, estimated_value := 110, confidence_interval := (0, 0) }]
        { current_price := 100 }
        = ("Buy - Valuation suggests moderate upside potential")
    ∧ generate_recommendation
        [{ method := ValuationMethod.dcf, estimated_value := 102, confidence_interval := (0, 0) }]
        { current_price := 100 }
        = ("Hold - Valuation is approximately fair value")
    ∧ generate_recommendation
        [{ method := ValuationMethod.dcf, estimated_value := 90, confidence_interval := (0, 0) }]
        { current_price := 100 }
        = ("Hold - Valuation suggests slight downside risk")
    ∧ generate_recommendation
        [{ method := ValuationMethod.dcf, estimated_value := 70, confidence_interval := (0, 0) }]
        { current_price := 100 }
        = ("Sell - Valuation suggests significant downside risk")
    ∧ generate_recommendation [] { current_price := 100 }
        = ("Insufficient data for recommendation") := by
  refine ⟨fun h => by simp [generate_recommendation, h], fun h => ?_, ?_, ?_, ?_, ?_, ?_, ?_⟩
  · simp only [generate_recommendation, if_neg h]
  all_goals norm_num [generate_recommendation]

/-- C4 witness: the threshold theorem applied with a nonempty outcome
list (mean 125 against price 100). -/
theorem generate_recommendation_thresholds_witness :
    ([{ method := ValuationMethod.dcf, estimated_value := 125, confidence_interval := (0, 0) }]
        : List ValuationResult) ≠ []
    ∧ generate_recommendation
        [{ method := ValuationMethod.dcf, estimated_value := 125, confidence_interval := (0, 0) }]
        { current_price := 100 }
        = ("Strong Buy - Multiple valuation methods suggest significant upside") := by
  constructor
  · simp
  · have h2 := (generate_recommendation_thresholds
      [{ method := ValuationMethod.dcf, estimated_value := 125, confidence_interval := (0, 0) }]
      { current_price := 100 }).2.1 (by simp)
    rw [h2]
    norm_num

/-- C5 counterexample: a DCF outcome with negative equity value (debt 100
against zero cash flows) has an inverted confidence interval — lower bound
-80 is greater than upper bound -120 — refuting lower ≤ upper for every
outcome. -/
theorem dcf_negative_estimate_interval_inverted :
    ValuationEngine.dcf_valuation { total_debt := some 100 } {} none =
      Except.ok { method := ValuationMethod.dcf, estimated_value := -100,
                  confidence_interval := (-80, -120) }
    ∧ ¬ ((-80 : ℚ) ≤ -120) := by
  constructor
  · norm_num [ValuationEngine.dcf_valuation, ValuationEngine.project_cash_flows,
      ValuationEngine.calculate_terminal_value, ValuationEngine.discount_cash_flows,
      ValuationEngine.calculate_dcf_confidence_interval, List.range_succ,
      Int.toNat_ofNat, List.replicate, List.enum, List.enumFrom, List.getLast?]
  · norm_num

/-- C5 (amended): every confidence interval produced by the four valuators
is a multiplicative band around the estimate, so lower ≤ upper holds for
every outcome whose estimated value is nonnegative; a negative estimate
(possible for DCF) inverts the band. -/
theorem valuator_interval_ordered_of_nonneg_estimate
    (method : ValuationMethod) (stock_data : StockData) (market_context : MarketContext)
    (assumptions : Option ValuationAssumptions) (r : ValuationResult)
    (hok : perform_single_valuation method stock_data market_context assumptions = Except.ok r)
    (hnn : 0 ≤ r.estimated_value) :
    r.confidence_interval.1 ≤ r.confidence_interval.2 := by
  obtain ⟨-, cr, hcr, hci⟩ := perform_single_ok_shape hok
  rw [hci]
  exact mul_le_mul_of_nonneg_left (by linarith) hnn

/-- C5 witness: the amended theorem applied to a comparative outcome with a
nonnegative estimate. -/
theorem valuator_interval_ordered_witness :
    perform_single_valuation ValuationMethod.comparative { current_price := some 100 } {} none
      = Except.ok { method := ValuationMethod.comparative, estimated_value := 110,
                    confidence_interval := (88, 132) }
    ∧ (0 : ℚ) ≤ 110
    ∧ ((88 : ℚ), (132 : ℚ)).1 ≤ ((88 : ℚ), (132 : ℚ)).2 := by
  have hok : perform_single_valuation ValuationMethod.comparative
      { current_price := some 100 } {} none
      = Except.ok { method := ValuationMethod.comparative, estimated_value := 110,
                    confidence_interval := (88, 132) } := by
    norm_num [perform_single_valuation, ValuationEngine.comparative_valuation]
  exact ⟨hok, by norm_num,
    valuator_interval_ordered_of_nonneg_estimate _ _ _ _ _ hok (by norm_num)⟩

/-- The PEG band tiers as an arithmetic fact about the band helper. -/
theorem peg_ci_tiers (E P : ℚ) :
    (|P - 1| < 2/10 →
        ValuationEngine.calculate_peg_confidence_interval E P = (E * (9/10), E * (11/10)))
    ∧ (2/10 ≤ |P - 1| → |P - 1| < 5/10 →
        ValuationEngine.calculate_peg_confidence_interval E P = (E * (8/10), E * (12/10)))
    ∧ (5/10 ≤ |P - 1| →
        ValuationEngine.calculate_peg_confidence_interval E P = (E * (7/10), E * (13/10))) := by
  refine ⟨fun hdev => ?_, fun hle hlt => ?_, fun hge => ?_⟩
  · simp only [ValuationEngine.calculate_peg_confidence_interval]
    rw [if_pos hdev]
    norm_num
  · simp only [ValuationEngine.calculate_peg_confidence_interval]
    rw [if_neg (not_lt.mpr hle), if_pos hlt]
    norm_num
  · have h2 : ¬ |P - 1| < 2/10 := not_lt.mpr (le_trans (by norm_num) hge)
    simp only [ValuationEngine.calculate_peg_confidence_interval]
    rw [if_neg h2, if_neg (not_lt.mpr hge)]
    norm_num

/-- C6: every successful PEG outcome carries the band determined by the
deviation of its PEG ratio from 1.0, with strict tier comparisons:
deviation < 0.2 gives ±10 percent, deviation in [0.2, 0.5) gives ±20
percent, deviation ≥ 0.5 gives ±30 percent. -/
theorem peg_confidence_tiers (s : StockData) (c : MarketContext)
    (a : Option ValuationAssumptions) (r : ValuationResult)
    (h : ValuationEngine.peg_valuation s c a = Except.ok r) :
    (|s.pe_ratio.getD 0 / (s.earnings_growth.getD 0 * 100) - 1| < 2/10 →
        r.confidence_interval = (r.estimated_value * (9/10), r.estimated_value * (11/10)))
    ∧ (2/10 ≤ |s.pe_ratio.getD 0 / (s.earnings_growth.getD 0 * 100) - 1| →
        |s.pe_ratio.getD 0 / (s.earnings_growth.getD 0 * 100) - 1| < 5/10 →
        r.confidence_interval = (r.estimated_value * (8/10), r.estimated_value * (12/10)))
    ∧ (5/10 ≤ |s.pe_ratio.getD 0 / (s.earnings_growth.getD 0 * 100) - 1| →
        r.confidence_interval = (r.estimated_value * (7/10), r.estimated_value * (13/10))) := by
  simp only [ValuationEngine.peg_valuation] at h
  split at h
  · simp at h
  · rw [Except.ok.injEq] at h
    subst h
    exact peg_ci_tiers _ _

/-- C6 witness: a PEG ratio of 1.15 (deviation 0.15) yields the ±10 percent
band, per the tier theorem. -/
theorem peg_confidence_tiers_witness :
    ValuationEngine.peg_valuation
        { pe_ratio := some 23, earnings_growth := some (1/5), eps := some 1 } {} none
      = Except.ok { method := ValuationMethod.peg, estimated_value := 20,
                    confidence_interval := (18, 22) }
    ∧ ((18 : ℚ), (22 : ℚ)) = ((20 : ℚ) * (9/10), (20 : ℚ) * (11/10)) := by
  have hok : ValuationEngine.peg_valuation
      { pe_ratio := some 23, earnings_growth := some (1/5), eps := some 1 } {} none
      = Except.ok { method := ValuationMethod.peg, estimated_value := 20,
                    confidence_interval := (18, 22) } := by
    norm_num [ValuationEngine.peg_valuation, truthy,
      ValuationEngine.calculate_peg_confidence_interval, abs_of_nonneg]
  have hdev : |({ pe_ratio := some 23, earnings_growth := some (1/5), eps := some 1 }
        : StockData).pe_ratio.getD 0
      / (({ pe_ratio := some 23, earnings_growth := some (1/5), eps := some 1 }
        : StockData).earnings_growth.getD 0 * 100) - 1| < 2/10 := by
    norm_num [abs_of_nonneg]
  exact ⟨hok, (peg_confidence_tiers _ {} none _ hok).1 hdev⟩

/-- C7 counterexample: on the spec example snapshot the risk list is the
capitalized sentinel, which is not equal to the lowercase sentinel string
the claim requires the list to equal exactly. -/
theorem risk_sentinel_capitalization :
    identify_risk_factors { debt_to_equity := some (1/2), pe_ratio := some 12 }
        { market_volatility := some (1/20) }
      = ["No significant risk factors identified"]
    ∧ (["No significant risk factors identified"] : List String)
        ≠ ["no significant risk factors identified"] := by
  constructor
  · norm_num [identify_risk_factors]
  · decide

/-- C7 (amended): the risk list carries one flag per fired rule —
debt/equity > 1.0, P/E > 30, volatility > 0.3 — in check-declaration
order, and equals exactly the single-element sentinel list
["No significant risk factors identified"] (capitalized, as in the code)
when no rule fires. -/
theorem identify_risk_factors_rules (s : StockData) (c : MarketContext) :
    identify_risk_factors s c =
      (if s.debt_to_equity.getD 0 ≤ 1 ∧ s.pe_ratio.getD 0 ≤ 30
          ∧ c.market_volatility.getD 0 ≤ 3/10
       then ["No significant risk factors identified"]
       else (if 1 < s.debt_to_equity.getD 0 then ["High debt-to-equity ratio"] else []) ++
            (if 30 < s.pe_ratio.getD 0 then ["High P/E ratio may indicate overvaluation"] else []) ++
            (if 3/10 < c.market_volatility.getD 0 then ["High market volatility"] else [])) := by
  by_cases h1 : s.debt_to_equity.getD 0 ≤ 1 <;>
    by_cases h2 : s.pe_ratio.getD 0 ≤ 30 <;>
      by_cases h3 : c.market_volatility.getD 0 ≤ 3/10 <;>
        simp [identify_risk_factors, lt_iff_not_le, h1, h2, h3]

/-- C8 counterexample: a negative projection_years override is not
validated at the valuator boundary — the valuator proceeds into the
numeric computation (the projection helper returns the empty list) and
fails with an IndexError at the final-flow access, not with any
InvalidAssumptionError. -/
theorem dcf_negative_projection_years_not_validated :
    ValuationEngine.dcf_valuation {} {} (some { projection_years := some (-1) })
        = Except.error ValError.indexError
    ∧ (Except.error ValError.indexError : Except ValError ValuationResult)
        ≠ Except.error ValError.invalidAssumption
    ∧ ValuationEngine.project_cash_flows 0 (5/100) (-1) = [] := by
  have ht : ((-1 : ℤ)).toNat = 0 := rfl
  refine ⟨?_, by simp, by simp [ValuationEngine.project_cash_flows, ht]⟩
  simp [ValuationEngine.dcf_valuation, ValuationEngine.project_cash_flows, ht]

/-- C8 (amended): the DCF valuator performs no boundary validation of a
nonpositive projection_years override; it projects an empty cash-flow list
and fails with an IndexError at the final-flow access, which the
orchestrator catches and excludes like every other per-method error. -/
theorem dcf_nonpositive_projection_years_index_error (s : StockData) (c : MarketContext)
    (a : ValuationAssumptions) (y : ℤ) (hy : a.projection_years = some y) (hnp : y ≤ 0) :
    ValuationEngine.dcf_valuation s c (some a) = Except.error ValError.indexError
    ∧ perform_valuation_loop [ValuationMethod.dcf] s c (some a) = [] := by
  have h1 : ValuationEngine.dcf_valuation s c (some a) = Except.error ValError.indexError := by
    simp [ValuationEngine.dcf_valuation, ValuationEngine.project_cash_flows, hy,
      Int.toNat_of_nonpos hnp]
  exact ⟨h1, by simp [perform_valuation_loop, perform_single_valuation, h1]⟩

/-- C8 witness: the amended theorem applied at a zero projection_years
override. -/
theorem dcf_nonpositive_projection_years_index_error_witness :
    ({ projection_years := some 0 } : ValuationAssumptions).projection_years = some 0
    ∧ ((0 : ℤ) ≤ 0)
    ∧ ValuationEngine.dcf_valuation { current_price := some 10 } {}
        (some { projection_years := some 0 }) = Except.error ValError.indexError :=
  ⟨rfl, by norm_num,
    (dcf_nonpositive_projection_years_index_error { current_price := some 10 } {}
      { projection_years := some 0 } 0 rfl (by norm_num)).1⟩

/-- C9: a required field that is present but exactly zero makes the PEG and
P/E valuators raise their missing-input ValueError instead of computing —
zero P/E or zero earnings growth for PEG, zero P/E or zero EPS for P/E —
and consequently the PEG divisor earnings_growth * 100 is nonzero on every
successful PEG valuation. -/
theorem zero_required_fields_raise (s : StockData) (c : MarketContext)
    (a : Option ValuationAssumptions) :
    (s.pe_ratio = some 0 ∨ s.earnings_growth = some 0 →
        ValuationEngine.peg_valuation s c a = Except.error ValError.valueError)
    ∧ (s.pe_ratio = some 0 ∨ s.eps = some 0 →
        ValuationEngine.pe_valuation s c a = Except.error ValError.valueError)
    ∧ (∀ r, ValuationEngine.peg_valuation s c a = Except.ok r →
        s.earnings_growth.getD 0 * 100 ≠ 0) := by
  refine ⟨?_, ?_, ?_⟩
  · rintro (h | h) <;> simp [ValuationEngine.peg_valuation, truthy, h]
  · rintro (h | h) <;> simp [ValuationEngine.pe_valuation, truthy, h]
  · intro r h
    simp only [ValuationEngine.peg_valuation] at h
    split at h
    · simp at h
    · rename_i hcond
      have hg : truthy s.earnings_growth = true := by
        cases hb : truthy s.earnings_growth
        · exact absurd (by simp [hb]) hcond
        · rfl
      obtain ⟨v, hv, hvne⟩ := (truthy_iff _).mp hg
      rw [hv]
      simpa using mul_ne_zero hvne (show (100 : ℚ) ≠ 0 by norm_num)

/-- C9 witness: a present-but-zero P/E ratio makes the PEG valuator raise
the missing-input error. -/
theorem zero_required_fields_raise_witness :
    (({ pe_ratio := some 0, earnings_growth := some (1/10) } : StockData).pe_ratio = some 0
      ∨ ({ pe_ratio := some 0, earnings_growth := some (1/10) } : StockData).earnings_growth
          = some 0)
    ∧ ValuationEngine.peg_valuation
        { pe_ratio := some 0, earnings_growth := some (1/10) } {} none
        = Except.error ValError.valueError :=
  ⟨Or.inl rfl,
    (zero_required_fields_raise
      { pe_ratio := some 0, earnings_growth := some (1/10) } {} none).1 (Or.inl rfl)⟩

end FinchAnalytics
